import Mathlib

/-!
A model of the lexical scanner implemented in `src/app/main.py` of this
repository, together with theorems about its behaviour.

The Python scanner consists of the dataclass `Token` (main.py lines 5-11),
the constant table `TokenType` (lines 15-41), two exception classes that
only carry a formatted message (lines 44-71), and the class `Tokenizer`
whose methods are `tokenize` (lines 98-166), the static `match_char`
(lines 168-238) and `print_tokens` (lines 240-249).

`tokenize` receives the file contents as the list of its physical lines
(the driver `main`, lines 259-281, obtains them with `readlines`, so every
element except possibly the last ends in a newline character).  It mutates
the instance lists `self.tokens` and `self.errors` and keeps a cursor `i`
into the current line.  The embedding below makes the mutation explicit:
the body of the inner `while` loop is `scanStep` (which reports the tokens
and error messages the iteration appends), the loop itself is
`scanLineF`/`scanLine`, and the outer `for` loop is `tokenize_lines`.
Python `None` is modelled by `Option.none`, string characters by `Char`,
and the ASCII-level tests `str.isdigit`/`str.isalpha` by
`Char.isDigit`/`Char.isAlpha` (all inputs of interest are ASCII).
-/

/-- Model of the `Token` dataclass (main.py lines 5-11); the fields
`endLine` and `literal` default to `None`. -/
structure Token where
  type : String
  lexeme : String
  startLine : Nat
  endLine : Option Nat := none
  literal : Option String := none
deriving Repr, DecidableEq

/- Token-type constants (main.py lines 15-41). -/
namespace TokenType

def LEFT_PAREN : String := "LEFT_PAREN"

def RIGHT_PAREN : String := "RIGHT_PAREN"

def LEFT_BRACE : String := "LEFT_BRACE"

def RIGHT_BRACE : String := "RIGHT_BRACE"

def COMMA : String := "COMMA"

def DOT : String := "DOT"

def MINUS : String := "MINUS"

def PLUS : String := "PLUS"

def SEMICOLON : String := "SEMICOLON"

def STAR : String := "STAR"

def EQUAL : String := "EQUAL"

def EQUAL_EQUAL : String := "EQUAL_EQUAL"

def BANG : String := "BANG"

def BANG_EQUAL : String := "BANG_EQUAL"

def LESS : String := "LESS"

def LESS_EQUAL : String := "LESS_EQUAL"

def GREATER : String := "GREATER"

def GREATER_EQUAL : String := "GREATER_EQUAL"

def SLASH : String := "SLASH"

def COMMENT : String := "COMMENT"

def SPACE : String := "|SPACE|"

def TAB : String := "|TAB|"

def NEWLINE : String := "|NEWLINE|"

def WORD : String := "WORD"

def NUMBER : String := "NUMBER"

def STRING : String := "STRING"

end TokenType

/-- Message of the `UnexpectedCharacter` exception (main.py lines 44-57). -/
def unexpected_character_message (char : Char) (line_number : Nat) : String :=
  "[line " ++ toString line_number ++ "] Error: Unexpected character: " ++ char.toString

/-- Message of the `UnterminatedStringError` exception (main.py lines 60-71). -/
def unterminated_string_message (line_number : Nat) : String :=
  "[line " ++ toString line_number ++ "] Error: Unterminated string."

/-- Model of the static method `Tokenizer.match_char` (main.py lines
168-238): maps the current character (with one character of lookahead) to
a token type and the flag saying whether the lookahead character is
consumed too, or to the message of the `UnexpectedCharacter` exception it
raises. -/
def match_char (char : Char) (next_char : Option Char) (line_number : Nat) :
    Except String (String × Bool) :=
  match char with
  | '(' => Except.ok (TokenType.LEFT_PAREN, false)
  | ')' => Except.ok (TokenType.RIGHT_PAREN, false)
  | '{' => Except.ok (TokenType.LEFT_BRACE, false)
  | '}' => Except.ok (TokenType.RIGHT_BRACE, false)
  | ',' => Except.ok (TokenType.COMMA, false)
  | '.' => Except.ok (TokenType.DOT, false)
  | '-' => Except.ok (TokenType.MINUS, false)
  | '+' => Except.ok (TokenType.PLUS, false)
  | ';' => Except.ok (TokenType.SEMICOLON, false)
  | '*' => Except.ok (TokenType.STAR, false)
  | '=' =>
      if next_char == some '=' then Except.ok (TokenType.EQUAL_EQUAL, true)
      else Except.ok (TokenType.EQUAL, false)
  | '!' =>
      if next_char == some '=' then Except.ok (TokenType.BANG_EQUAL, true)
      else Except.ok (TokenType.BANG, false)
  | '<' =>
      if next_char == some '=' then Except.ok (TokenType.LESS_EQUAL, true)
      else Except.ok (TokenType.LESS, false)
  | '>' =>
      if next_char == some '=' then Except.ok (TokenType.GREATER_EQUAL, true)
      else Except.ok (TokenType.GREATER, false)
  | '/' =>
      if next_char == some '/' then Except.ok (TokenType.COMMENT, true)
      else Except.ok (TokenType.SLASH, false)
  | _ =>
      if char == ' ' then Except.ok (TokenType.SPACE, false)
      else if char == '\t' then Except.ok (TokenType.TAB, false)
      else if char == '\n' then Except.ok (TokenType.NEWLINE, false)
      else Except.error (unexpected_character_message char line_number)

/-- Scanning state of a `Tokenizer` instance: the lists `self.tokens` and
`self.errors` (main.py lines 84-85).  The two remaining attributes play no
part in `tokenize`: `self.filename` is only read by `read_file`, and
`self.current_line` is written once in `__init__` and never read. -/
structure Tokenizer where
  tokens : List Token
  errors : List String
deriving Repr, DecidableEq

/-- State of a freshly constructed `Tokenizer` (main.py lines 76-86). -/
def Tokenizer.init : Tokenizer := ⟨[], []⟩

/-- Outcome of one iteration of the inner `while` loop of
`Tokenizer.tokenize` (main.py lines 108-164): whether the iteration ran
`break`, the characters of the line left after it, the updated
`line_number`, and the tokens and error messages the iteration appended to
the instance lists. -/
structure StepOut where
  brk : Bool
  rest : List Char
  line_number : Nat
  newTokens : List Token
  newErrors : List String
deriving Repr, DecidableEq

/-- One iteration of the inner `while` loop of `Tokenizer.tokenize`
(main.py lines 108-164).  `c` is the character at the cursor and `rest`
the characters of the line after it, so `rest.head?` is the lookahead
`line[i + 1]`.  Slices such as `line[start:i]` are expressed with
`takeWhile`, and the new cursor position with `dropWhile`/`drop`.
The branches, in source order:
the line-comment check (lines 111-113), string literals (lines 115-131,
where an exhausted line raises `UnterminatedStringError` and the `except`
arm at lines 162-164 records its message and pushes the cursor past the
end of the line), number literals (lines 132-139, note that the run
consumes every digit and every dot and that `literal` is the raw lexeme),
words (lines 140-147), and the `match_char` dispatch (lines 149-161,
where an `UnexpectedCharacter` message is recorded and the cursor advances
by one, a returned type is appended as a token — skipping the lookahead
character when `skip` is set — and a `COMMENT` token would run `break`). -/
def scanStep (c : Char) (rest : List Char) (line_number : Nat) : StepOut :=
  if c == '/' && rest.head? == some '/' then
    ⟨true, rest, line_number, [], []⟩
  else if c == '"' then
    let body := rest.takeWhile (fun x => x != '"')
    let nl := body.count '\n'
    match rest.dropWhile (fun x => x != '"') with
    | [] =>
        ⟨false, [], line_number + nl, [],
          [unterminated_string_message line_number]⟩
    | _ :: rest2 =>
        let lexeme := String.mk ('"' :: (body ++ ['"']))
        ⟨false, rest2, line_number + nl,
          [⟨TokenType.STRING, lexeme, line_number, some (line_number + nl),
            some (String.mk body)⟩], []⟩
  else if c.isDigit || (c == '.' && rest.head?.elim false Char.isDigit) then
    let lexeme := String.mk (c :: rest.takeWhile (fun x => x.isDigit || x == '.'))
    ⟨false, rest.dropWhile (fun x => x.isDigit || x == '.'), line_number,
      [⟨TokenType.NUMBER, lexeme, line_number, some line_number, some lexeme⟩], []⟩
  else if c.isAlpha then
    let lexeme := String.mk (c :: rest.takeWhile Char.isAlpha)
    ⟨false, rest.dropWhile Char.isAlpha, line_number,
      [⟨TokenType.WORD, lexeme, line_number, some line_number, none⟩], []⟩
  else
    match match_char c rest.head? line_number with
    | Except.error msg =>
        ⟨false, rest, line_number, [], [msg]⟩
    | Except.ok (token_type, skip) =>
        let nextRest := if skip then rest.drop 1 else rest
        if token_type != "" then
          let lexeme := if skip then String.mk (c :: rest.take 1) else String.mk [c]
          let tok : Token := ⟨token_type, lexeme, line_number, some line_number, none⟩
          if token_type == TokenType.COMMENT then
            ⟨true, nextRest, line_number, [tok], []⟩
          else
            ⟨false, nextRest, line_number, [tok], []⟩
        else
          ⟨false, nextRest, line_number, [], []⟩

/-- The inner `while` loop of `Tokenizer.tokenize` (main.py lines
108-164), with explicit fuel.  Every iteration consumes at least one
character of the line, and `scan_fuel_bounded_by_length` below shows that
fuel `l.length` always suffices, so the fuel-exhausted arm is never taken
from `scanLine`. -/
def scanLineF : Nat → List Char → Nat → Tokenizer → Tokenizer × Nat
  | _, [], line_number, st => (st, line_number)
  | 0, _ :: _, line_number, st => (st, line_number)
  | fuel + 1, c :: rest, line_number, st =>
      let out := scanStep c rest line_number
      let st' : Tokenizer := ⟨st.tokens ++ out.newTokens, st.errors ++ out.newErrors⟩
      if out.brk then (st', out.line_number)
      else scanLineF fuel out.rest out.line_number st'

/-- Scan of one physical line: the inner `while` loop run to completion,
returning the updated tokenizer state and `line_number`. -/
def scanLine (l : List Char) (line_number : Nat) (st : Tokenizer) : Tokenizer × Nat :=
  scanLineF l.length l line_number st

/-- The outer `for` loop of `Tokenizer.tokenize` (main.py lines 106-166):
scan each line in turn, adding one to `line_number` after each. -/
def tokenize_lines : List String → Nat → Tokenizer → Tokenizer
  | [], _, st => st
  | line :: restLines, line_number, st =>
      let r := scanLine line.data line_number st
      tokenize_lines restLines (r.2 + 1) r.1

/-- Model of `Tokenizer.tokenize` (main.py lines 98-166): scans the file
contents, given as the list of its physical lines, starting from the
tokenizer state `st` and with `line_number = 1`. -/
def tokenize (file_contents : List String) (st : Tokenizer) : Tokenizer :=
  tokenize_lines file_contents 1 st

/-- The line printed for one token by `Tokenizer.print_tokens` (main.py
lines 244-248), or `none` for the suppressed kinds.  Python prints the
`literal` attribute directly, so a `None` literal would print as `None`. -/
def render_token (t : Token) : Option String :=
  if t.type == TokenType.STRING || t.type == TokenType.NUMBER then
    some (t.type ++ " " ++ t.lexeme ++ " " ++ t.literal.getD "None")
  else if t.type == TokenType.COMMENT || t.type == TokenType.SPACE
      || t.type == TokenType.TAB || t.type == TokenType.NEWLINE then
    none
  else
    some (t.type ++ " " ++ t.lexeme ++ " null")

/-- Model of `Tokenizer.print_tokens` (main.py lines 240-249) as the list
of printed lines: one line per non-suppressed token, then the fixed final
line `EOF  null` (line 249). -/
def print_tokens (tokens : List Token) : List String :=
  tokens.filterMap render_token ++ ["EOF  null"]

/-- Invariant predicate on tokens produced by the scanner: the kind is
neither `EOF` nor `COMMENT`, and a `NUMBER` token carries its own raw
lexeme as its literal. -/
def goodToken (t : Token) : Bool :=
  t.type != "EOF" && t.type != TokenType.COMMENT &&
    (t.type != TokenType.NUMBER || t.literal == some t.lexeme)

/-- One-character token kind of the four operator characters that take
lookahead in `match_char`. -/
def one_char_kind : Char → String
  | '=' => TokenType.EQUAL
  | '!' => TokenType.BANG
  | '<' => TokenType.LESS
  | '>' => TokenType.GREATER
  | _ => ""

/-- Two-character token kind of the four operator characters that take
lookahead in `match_char`. -/
def two_char_kind : Char → String
  | '=' => TokenType.EQUAL_EQUAL
  | '!' => TokenType.BANG_EQUAL
  | '<' => TokenType.LESS_EQUAL
  | '>' => TokenType.GREATER_EQUAL
  | _ => ""

/-- Each loop iteration never lengthens the unread remainder of the line. -/
theorem scanStep_rest_length (c : Char) (rest : List Char) (ln : Nat) :
    (scanStep c rest ln).rest.length ≤ rest.length := by
  have hq : (rest.dropWhile (fun x => x != '"')).length ≤ rest.length :=
    (List.dropWhile_sublist _).length_le
  have hn : (rest.dropWhile (fun x => x.isDigit || x == '.')).length ≤ rest.length :=
    (List.dropWhile_sublist _).length_le
  have ha : (rest.dropWhile Char.isAlpha).length ≤ rest.length :=
    (List.dropWhile_sublist _).length_le
  unfold scanStep
  repeat' split
  all_goals simp_all
  all_goals omega

/-- The fuel of `scanLineF` is irrelevant as soon as it is at least the
length of the line. -/
theorem scanLineF_congr : ∀ fuel fuel' l ln st, l.length ≤ fuel → l.length ≤ fuel' →
    scanLineF fuel l ln st = scanLineF fuel' l ln st := by
  intro fuel
  induction fuel with
  | zero =>
      intro fuel' l ln st h _
      have : l = [] := List.length_eq_zero.mp (Nat.le_zero.mp h)
      subst this
      cases fuel' <;> rfl
  | succ fuel ih =>
      intro fuel' l ln st h h'
      cases l with
      | nil => cases fuel' <;> rfl
      | cons c rest =>
          cases fuel' with
          | zero => simp at h'
          | succ fuel' =>
              simp only [scanLineF]
              split
              · rfl
              · exact ih fuel' (scanStep c rest ln).rest (scanStep c rest ln).line_number _
                  (le_trans (scanStep_rest_length c rest ln) (by simpa using h))
                  (le_trans (scanStep_rest_length c rest ln) (by simpa using h'))

/-- Unfolding lemma for `scanLine` on a non-empty line. -/
theorem scanLine_cons (c : Char) (rest : List Char) (ln : Nat) (st : Tokenizer) :
    scanLine (c :: rest) ln st =
      (let out := scanStep c rest ln
       let st' : Tokenizer := ⟨st.tokens ++ out.newTokens, st.errors ++ out.newErrors⟩
       if out.brk then (st', out.line_number)
       else scanLine out.rest out.line_number st') := by
  show scanLineF (c :: rest).length (c :: rest) ln st = _
  simp only [List.length_cons, scanLineF]
  split
  · rfl
  · exact scanLineF_congr rest.length (scanStep c rest ln).rest.length _ _ _
      (scanStep_rest_length c rest ln) le_rfl

/-- Scanning a line only ever appends to the incoming token and error
lists, and neither the appended output nor the returned line number
depends on the incoming lists. -/
theorem scanLineF_frame : ∀ fuel l ln t e, scanLineF fuel l ln ⟨t, e⟩ =
    (⟨t ++ (scanLineF fuel l ln ⟨[], []⟩).1.tokens,
      e ++ (scanLineF fuel l ln ⟨[], []⟩).1.errors⟩,
     (scanLineF fuel l ln ⟨[], []⟩).2) := by
  intro fuel
  induction fuel with
  | zero => intro l ln t e; cases l <;> simp [scanLineF]
  | succ fuel ih =>
      intro l ln t e
      cases l with
      | nil => simp [scanLineF]
      | cons c rest =>
          simp only [scanLineF]
          split
          · simp
          · rw [ih (scanStep c rest ln).rest (scanStep c rest ln).line_number
                (t ++ (scanStep c rest ln).newTokens) (e ++ (scanStep c rest ln).newErrors),
               ih (scanStep c rest ln).rest (scanStep c rest ln).line_number
                ([] ++ (scanStep c rest ln).newTokens) ([] ++ (scanStep c rest ln).newErrors)]
            simp

/-- Restatement of `scanLineF_frame` for `scanLine` and an arbitrary
starting state. -/
theorem scanLine_frame (l : List Char) (ln : Nat) (st : Tokenizer) :
    scanLine l ln st =
      (⟨st.tokens ++ (scanLine l ln Tokenizer.init).1.tokens,
        st.errors ++ (scanLine l ln Tokenizer.init).1.errors⟩,
       (scanLine l ln Tokenizer.init).2) := by
  cases st with
  | mk t e => simpa [scanLine, Tokenizer.init] using scanLineF_frame l.length l ln t e

/-- The outer loop of `tokenize` likewise only appends to the incoming
token and error lists. -/
theorem tokenize_lines_frame : ∀ lines ln st, tokenize_lines lines ln st =
    ⟨st.tokens ++ (tokenize_lines lines ln Tokenizer.init).tokens,
     st.errors ++ (tokenize_lines lines ln Tokenizer.init).errors⟩ := by
  intro lines
  induction lines with
  | nil => intro ln st; simp [tokenize_lines, Tokenizer.init]
  | cons line restLines ih =>
      intro ln st
      simp only [tokenize_lines]
      rw [scanLine_frame line.data ln st]
      rw [ih]
      rw [ih ((scanLine line.data ln Tokenizer.init).2 + 1) (scanLine line.data ln Tokenizer.init).1]
      simp [List.append_assoc]

/-- Classification of the successful results of `match_char`: the
returned type is never `EOF` or `NUMBER`, and it is `COMMENT` only for a
slash followed by a slash. -/
theorem match_char_ok (c : Char) (n : Option Char) (ln : Nat) (tt : String) (sk : Bool)
    (h : match_char c n ln = Except.ok (tt, sk)) :
    tt ≠ "EOF" ∧ tt ≠ TokenType.NUMBER ∧ (tt = TokenType.COMMENT → c = '/' ∧ n = some '/') := by
  unfold match_char at h
  split at h
  all_goals repeat' split at h
  all_goals simp_all [TokenType.LEFT_PAREN, TokenType.RIGHT_PAREN, TokenType.LEFT_BRACE,
    TokenType.RIGHT_BRACE, TokenType.COMMA, TokenType.DOT, TokenType.MINUS, TokenType.PLUS,
    TokenType.SEMICOLON, TokenType.STAR, TokenType.EQUAL, TokenType.EQUAL_EQUAL,
    TokenType.BANG, TokenType.BANG_EQUAL, TokenType.LESS, TokenType.LESS_EQUAL,
    TokenType.GREATER, TokenType.GREATER_EQUAL, TokenType.SLASH, TokenType.COMMENT,
    TokenType.SPACE, TokenType.TAB, TokenType.NEWLINE, TokenType.WORD, TokenType.NUMBER,
    TokenType.STRING]
  all_goals obtain ⟨h1, h2⟩ := h
  all_goals subst h1
  all_goals simp

/-- Every token appended by a loop iteration satisfies `goodToken`; in
particular the `COMMENT` arm of `match_char` is pre-empted by the
line-comment check of the main loop. -/
theorem scanStep_newTokens_good (c : Char) (rest : List Char) (ln : Nat) :
    (scanStep c rest ln).newTokens.all goodToken = true := by
  unfold scanStep
  split
  · rfl
  next hA =>
    split
    · split
      · rfl
      · simp [goodToken, TokenType.STRING, TokenType.COMMENT, TokenType.NUMBER]
    · split
      · simp [goodToken, TokenType.NUMBER, TokenType.COMMENT]
      · split
        · simp [goodToken, TokenType.WORD, TokenType.COMMENT, TokenType.NUMBER]
        · split
          · rfl
          next token_type skip heq =>
            have hok := match_char_ok c rest.head? ln token_type skip heq
            by_cases htt : token_type = ""
            · simp [htt]
            · by_cases hcm : token_type = TokenType.COMMENT
              · exfalso
                obtain ⟨hc, hn⟩ := hok.2.2 hcm
                simp [hc, hn] at hA
              · simp [htt, hcm, goodToken, hok.1, hok.2.1]

/-- The line loop preserves the `goodToken` invariant of the token list. -/
theorem scanLineF_good : ∀ fuel l ln st, st.tokens.all goodToken = true →
    (scanLineF fuel l ln st).1.tokens.all goodToken = true := by
  intro fuel
  induction fuel with
  | zero => intro l ln st h; cases l <;> simpa [scanLineF] using h
  | succ fuel ih =>
      intro l ln st h
      cases l with
      | nil => simpa [scanLineF] using h
      | cons c rest =>
          have hstep : (st.tokens ++ (scanStep c rest ln).newTokens).all goodToken = true := by
            rw [List.all_append, h, scanStep_newTokens_good c rest ln]
            rfl
          simp only [scanLineF]
          split
          · simpa using hstep
          · exact ih (scanStep c rest ln).rest (scanStep c rest ln).line_number
              ⟨st.tokens ++ (scanStep c rest ln).newTokens,
               st.errors ++ (scanStep c rest ln).newErrors⟩ hstep

/-- The whole scan preserves the `goodToken` invariant of the token
list. -/
theorem tokenize_lines_good : ∀ lines ln st, st.tokens.all goodToken = true →
    (tokenize_lines lines ln st).tokens.all goodToken = true := by
  intro lines
  induction lines with
  | nil => intro ln st h; simpa [tokenize_lines] using h
  | cons line restLines ih =>
      intro ln st h
      simp only [tokenize_lines]
      exact ih _ _ (scanLineF_good line.data.length line.data ln st h)

/-- The tokens of a full scan from a fresh tokenizer state all satisfy
`goodToken`. -/
theorem tokenize_good (file_contents : List String) :
    (tokenize file_contents Tokenizer.init).tokens.all goodToken = true := by
  simpa [tokenize] using tokenize_lines_good file_contents 1 Tokenizer.init rfl

/-- C7: the scan always terminates within a number of loop iterations
bounded by the input length, and never raises an error to its caller.
Fuel equal to the length of the line already computes the final result of
the line loop — any extra fuel changes nothing — and `tokenize` is a
total function into `Tokenizer`, every lexical problem ending up as an
entry of the `errors` list of its result. -/
theorem scan_fuel_bounded_by_length (l : List Char) (extra ln : Nat) (st : Tokenizer) :
    scanLineF (l.length + extra) l ln st = scanLine l ln st :=
  scanLineF_congr (l.length + extra) l.length l ln st (Nat.le_add_right _ _) le_rfl

/-- C10: no token of kind `COMMENT` ever appears in the accumulated token
list: the slash-slash check at the top of the main loop breaks out of the
line before dispatch, so the `COMMENT` arm of `match_char` is
unreachable. -/
theorem no_comment_token_in_tokens (file_contents : List String) :
    (tokenize file_contents Tokenizer.init).tokens.all
      (fun t => t.type != TokenType.COMMENT) = true := by
  have h := tokenize_good file_contents
  rw [List.all_eq_true] at h ⊢
  intro t ht
  have hg := h t ht
  simp only [goodToken, Bool.and_eq_true, bne_iff_ne] at hg
  simpa using hg.1.2

/-- C1 fails on the code as stated: scanning `(` yields a token list
whose one and only element — in particular its last element — is the
`LEFT_PAREN` token, not an `EOF` token, because `tokenize` never stores
any `EOF` token. -/
theorem last_token_not_eof_on_lparen :
    (tokenize ["("] Tokenizer.init).tokens = [⟨TokenType.LEFT_PAREN, "(", 1, some 1, none⟩]
      ∧ TokenType.LEFT_PAREN ≠ "EOF" := by
  constructor
  · decide
  · decide

/-- C1 (amended): the token list built by `tokenize` never contains an
`EOF` token; the single final `EOF  null` line (empty lexeme, `null`
literal, no line number) is appended by `print_tokens` after the rendered
tokens, and is always the last printed line. -/
theorem eof_line_only_from_print_tokens (file_contents : List String) :
    (tokenize file_contents Tokenizer.init).tokens.all (fun t => t.type != "EOF") = true
    ∧ print_tokens (tokenize file_contents Tokenizer.init).tokens =
        (tokenize file_contents Tokenizer.init).tokens.filterMap render_token ++ ["EOF  null"]
    ∧ (print_tokens (tokenize file_contents Tokenizer.init).tokens).getLast? =
        some "EOF  null" := by
  refine ⟨?_, rfl, ?_⟩
  · have h := tokenize_good file_contents
    rw [List.all_eq_true] at h ⊢
    intro t ht
    have hg := h t ht
    simp only [goodToken, Bool.and_eq_true, bne_iff_ne] at hg
    simpa using hg.1.1
  · simp [print_tokens, List.getLast?_concat]

/-- C6 fails on the code as stated: the `NUMBER` token scanned from `1`
stores the raw lexeme text `1` itself in its `literal` field (the same
string as the `lexeme` field), not a parsed floating-point value. -/
theorem number_literal_is_lexeme_computation :
    tokenize ["1"] Tokenizer.init =
      ⟨[⟨TokenType.NUMBER, "1", 1, some 1, some "1"⟩], []⟩
    ∧ (Token.literal ⟨TokenType.NUMBER, "1", 1, some 1, some "1"⟩ =
        some (Token.lexeme ⟨TokenType.NUMBER, "1", 1, some 1, some "1"⟩)) := by
  constructor
  · decide
  · decide

/-- C6 (amended): every `NUMBER` token stores its raw lexeme text as its
`literal` field, with no parsing. -/
theorem number_literal_equals_lexeme (file_contents : List String) :
    (tokenize file_contents Tokenizer.init).tokens.all
      (fun t => t.type != TokenType.NUMBER || t.literal == some t.lexeme) = true := by
  have h := tokenize_good file_contents
  rw [List.all_eq_true] at h ⊢
  intro t ht
  have hg := h t ht
  simp only [goodToken, Bool.and_eq_true] at hg
  simpa using hg.2

/-- C8 fails on the code as stated: calling `tokenize` twice for the same
input on the same tokenizer state does not yield identical token
sequences, because the instance lists persist across calls and the second
call appends a second copy. -/
theorem rescan_same_state_not_idempotent :
    (tokenize [")"] (tokenize [")"] Tokenizer.init)).tokens ≠
      (tokenize [")"] Tokenizer.init).tokens := by
  decide

/-- C8 (amended): `tokenize` is a pure function of the input and the
incoming state that appends its output to the instance lists, so scanning
the same input twice from fresh tokenizer states yields identical token
and error sequences, while a second call on the same instance yields the
first call's lists followed by a second copy. -/
theorem tokenize_appends_to_state (file_contents : List String) (st : Tokenizer) :
    tokenize file_contents st =
      ⟨st.tokens ++ (tokenize file_contents Tokenizer.init).tokens,
       st.errors ++ (tokenize file_contents Tokenizer.init).errors⟩
    ∧ (tokenize file_contents (tokenize file_contents Tokenizer.init)).tokens =
        (tokenize file_contents Tokenizer.init).tokens ++
          (tokenize file_contents Tokenizer.init).tokens := by
  constructor
  · exact tokenize_lines_frame file_contents 1 st
  · have h2 := tokenize_lines_frame file_contents 1 (tokenize file_contents Tokenizer.init)
    simp only [tokenize] at h2 ⊢
    rw [h2]

/-- An alphabetic character is not a digit. -/
theorem isAlpha_isDigit_false (c : Char) (h : c.isAlpha = true) : c.isDigit = false := by
  simp [Char.isAlpha, Char.isUpper, Char.isLower, UInt32.le_def, BitVec.le_def] at h
  simp [Char.isDigit, UInt32.le_def, BitVec.le_def]
  omega

/-- A character whose class test holds differs from any character whose
class test fails, stated for `==`. -/
theorem beq_false_of_class (p : Char → Bool) (c d : Char) (hc : p c = true)
    (hd : p d = false) : (c == d) = false := by
  refine beq_eq_false_iff_ne.mpr ?_
  intro h
  rw [h, hd] at hc
  exact Bool.false_ne_true hc

/-- C2 fails on the code as stated: scanning `123.456.789` records no
error at all and emits the whole run as one `NUMBER` token whose literal
is the raw lexeme. -/
theorem multi_dot_number_computation :
    tokenize ["123.456.789"] Tokenizer.init =
      ⟨[⟨TokenType.NUMBER, "123.456.789", 1, some 1, some "123.456.789"⟩], []⟩ := by
  decide

/-- C2 (amended): a numeric run starting at a digit consumes the maximal
following run of digits and dots, emits that whole run as a single
`NUMBER` token whose literal is the raw lexeme, and records no error, no
matter how many dots the run contains. -/
theorem digit_run_emits_single_number_token (c : Char) (rest : List Char) (ln : Nat)
    (st : Tokenizer) (hc : c.isDigit = true) :
    scanLine (c :: rest) ln st =
      scanLine (rest.dropWhile (fun x => x.isDigit || x == '.')) ln
        ⟨st.tokens ++ [⟨TokenType.NUMBER,
            String.mk (c :: rest.takeWhile (fun x => x.isDigit || x == '.')), ln, some ln,
            some (String.mk (c :: rest.takeWhile (fun x => x.isDigit || x == '.')))⟩],
         st.errors⟩ := by
  have h1 : (c == '/') = false := beq_false_of_class Char.isDigit c '/' hc (by decide)
  have h2 : (c == '"') = false := beq_false_of_class Char.isDigit c '"' hc (by decide)
  rw [scanLine_cons]
  simp [scanStep, h1, h2, hc]

/-- Closed instance of `digit_run_emits_single_number_token` at the run
`123.456.789`. -/
theorem digit_run_emits_single_number_token_instance :
    ('1'.isDigit = true)
    ∧ scanLine ('1' :: "23.456.789".data) 1 Tokenizer.init =
        scanLine ("23.456.789".data.dropWhile (fun x => x.isDigit || x == '.')) 1
          ⟨Tokenizer.init.tokens ++ [⟨TokenType.NUMBER,
              String.mk ('1' :: "23.456.789".data.takeWhile (fun x => x.isDigit || x == '.')),
              1, some 1,
              some (String.mk ('1' :: "23.456.789".data.takeWhile (fun x => x.isDigit || x == '.')))⟩],
           Tokenizer.init.errors⟩ :=
  ⟨by decide, digit_run_emits_single_number_token '1' ("23.456.789".data) 1 Tokenizer.init (by decide)⟩

/-- C3 fails on the code as stated: the input `a_b` is not one identifier
run — the scanner emits two `WORD` tokens and records an unexpected
character error for the underscore — and the keyword `or` is not looked
up in any keyword table: it is emitted as a generic `WORD` token. -/
theorem underscore_identifier_computation :
    tokenize ["a_b"] Tokenizer.init =
      ⟨[⟨TokenType.WORD, "a", 1, some 1, none⟩, ⟨TokenType.WORD, "b", 1, some 1, none⟩],
       [unexpected_character_message '_' 1]⟩
    ∧ tokenize ["or"] Tokenizer.init = ⟨[⟨TokenType.WORD, "or", 1, some 1, none⟩], []⟩ := by
  constructor
  · decide
  · decide

/-- C3 (amended): a run of characters starting at an ASCII letter is cut
at the first non-alphabetic character (digits and underscores end it) and
emitted as a single `WORD` token with no literal and no keyword lookup,
while an underscore on its own is an unexpected-character error. -/
theorem alpha_run_emits_word_token (c : Char) (rest : List Char) (ln : Nat) (st : Tokenizer)
    (hc : c.isAlpha = true) :
    scanLine (c :: rest) ln st =
      scanLine (rest.dropWhile Char.isAlpha) ln
        ⟨st.tokens ++ [⟨TokenType.WORD, String.mk (c :: rest.takeWhile Char.isAlpha), ln,
            some ln, none⟩], st.errors⟩
    ∧ scanLine ('_' :: rest) ln st =
        scanLine rest ln ⟨st.tokens, st.errors ++ [unexpected_character_message '_' ln]⟩ := by
  have h1 : (c == '/') = false := beq_false_of_class Char.isAlpha c '/' hc (by decide)
  have h2 : (c == '"') = false := beq_false_of_class Char.isAlpha c '"' hc (by decide)
  have h3 : c.isDigit = false := isAlpha_isDigit_false c hc
  have h4 : (c == '.') = false := beq_false_of_class Char.isAlpha c '.' hc (by decide)
  constructor
  · rw [scanLine_cons]
    simp [scanStep, h1, h2, h3, h4, hc]
  · rw [scanLine_cons]
    simp [scanStep, match_char]

/-- Closed instance of `alpha_run_emits_word_token` at the letter `o`
followed by `r`. -/
theorem alpha_run_emits_word_token_instance :
    ('o'.isAlpha = true)
    ∧ (scanLine ('o' :: "r".data) 1 Tokenizer.init =
        scanLine ("r".data.dropWhile Char.isAlpha) 1
          ⟨Tokenizer.init.tokens ++ [⟨TokenType.WORD,
              String.mk ('o' :: "r".data.takeWhile Char.isAlpha), 1, some 1, none⟩],
           Tokenizer.init.errors⟩
      ∧ scanLine ('_' :: "r".data) 1 Tokenizer.init =
          scanLine "r".data 1
            ⟨Tokenizer.init.tokens,
             Tokenizer.init.errors ++ [unexpected_character_message '_' 1]⟩) :=
  ⟨by decide, alpha_run_emits_word_token 'o' ("r".data) 1 Tokenizer.init (by decide)⟩

/-- C4: because `tokenize` iterates over physical lines, a string literal
spanning two physical lines is never terminated.  On the two lines of the
source text quoting `a`, newline, `b`, the scanner emits no `STRING`
token at all: it records an unterminated-string error at line 1 for the
opening quote (advancing the line counter past the embedded newline),
scans `b` as a `WORD` token, and records a second unterminated-string
error for the closing quote — with the line counter already doubled up to
3 by the in-string newline counting plus the per-line increment. -/
theorem multiline_string_computation :
    tokenize ["\"a\n", "b\"\n"] Tokenizer.init =
      ⟨[⟨TokenType.WORD, "b", 3, some 3, none⟩],
       [unterminated_string_message 1, unterminated_string_message 3]⟩
    ∧ (tokenize ["\"a\n", "b\"\n"] Tokenizer.init).tokens.all
        (fun t => t.type != TokenType.STRING) = true := by
  constructor
  · decide
  · decide

/-- C5 fails on the code as stated: a space and a tab each append an
internal token (`|SPACE|` and `|TAB|`) to the token list, and a carriage
return records an unexpected-character error. -/
theorem whitespace_scan_computation :
    tokenize [" \t\r"] Tokenizer.init =
      ⟨[⟨TokenType.SPACE, " ", 1, some 1, none⟩, ⟨TokenType.TAB, "\t", 1, some 1, none⟩],
       [unexpected_character_message '\r' 1]⟩ := by
  decide

attribute [simp] TokenType.LEFT_PAREN TokenType.RIGHT_PAREN TokenType.LEFT_BRACE
  TokenType.RIGHT_BRACE TokenType.COMMA TokenType.DOT TokenType.MINUS TokenType.PLUS
  TokenType.SEMICOLON TokenType.STAR TokenType.EQUAL TokenType.EQUAL_EQUAL TokenType.BANG
  TokenType.BANG_EQUAL TokenType.LESS TokenType.LESS_EQUAL TokenType.GREATER
  TokenType.GREATER_EQUAL TokenType.SLASH TokenType.COMMENT TokenType.SPACE TokenType.TAB
  TokenType.NEWLINE TokenType.WORD TokenType.NUMBER TokenType.STRING

/-- C5 (amended): a space or a tab is consumed into an internal token of
kind `|SPACE|` or `|TAB|` that is appended to the token list but
suppressed by `print_tokens`, with no error; a carriage return is not
recognized and records an unexpected-character error. -/
theorem space_tab_internal_tokens_cr_error (rest : List Char) (ln : Nat) (st : Tokenizer) :
    scanLine (' ' :: rest) ln st =
      scanLine rest ln ⟨st.tokens ++ [⟨TokenType.SPACE, " ", ln, some ln, none⟩], st.errors⟩
    ∧ scanLine ('\t' :: rest) ln st =
        scanLine rest ln ⟨st.tokens ++ [⟨TokenType.TAB, "\t", ln, some ln, none⟩], st.errors⟩
    ∧ scanLine ('\r' :: rest) ln st =
        scanLine rest ln ⟨st.tokens, st.errors ++ [unexpected_character_message '\r' ln]⟩
    ∧ render_token ⟨TokenType.SPACE, " ", ln, some ln, none⟩ = none
    ∧ render_token ⟨TokenType.TAB, "\t", ln, some ln, none⟩ = none := by
  refine ⟨?_, ?_, ?_, ?_, ?_⟩
  · rw [scanLine_cons]
    simp [scanStep, match_char]
  · rw [scanLine_cons]
    simp [scanStep, match_char]
  · rw [scanLine_cons]
    simp [scanStep, match_char]
  · simp [render_token]
  · simp [render_token]

/-- C9: when one of `=`, `!`, `<`, `>` is followed immediately by `=`,
the scanner emits the single two-character token and continues after both
characters (never two adjacent one-character tokens); followed by
anything else, or at the end of the line, it emits its one-character
kind and continues at the following character. -/
theorem two_char_operator_tokens (c : Char)
    (hc : c ∈ ['=', '!', '<', '>']) (rest : List Char) (d : Char) (ln : Nat) (st : Tokenizer) :
    scanLine (c :: '=' :: rest) ln st =
      scanLine rest ln
        ⟨st.tokens ++ [⟨two_char_kind c, String.mk [c, '='], ln, some ln, none⟩], st.errors⟩
    ∧ (d ≠ '=' → scanLine (c :: d :: rest) ln st =
        scanLine (d :: rest) ln
          ⟨st.tokens ++ [⟨one_char_kind c, String.mk [c], ln, some ln, none⟩], st.errors⟩)
    ∧ scanLine [c] ln st =
        (⟨st.tokens ++ [⟨one_char_kind c, String.mk [c], ln, some ln, none⟩], st.errors⟩, ln) := by
  have hmem : c = '=' ∨ c = '!' ∨ c = '<' ∨ c = '>' := by simpa using hc
  rcases hmem with rfl | rfl | rfl | rfl <;>
    refine ⟨?_, fun hd => ?_, ?_⟩ <;>
      rw [scanLine_cons] <;>
        try (have hd2 : (some d == some '=') = false :=
          beq_eq_false_iff_ne.mpr (by simpa using hd))
  all_goals simp [scanStep, match_char, one_char_kind, two_char_kind, *]
  all_goals rfl

/-- Closed instance of `two_char_operator_tokens` at the character `<`
with lookahead `=`, lookahead `a`, and end of line. -/
theorem two_char_operator_tokens_instance :
    ('<' ∈ ['=', '!', '<', '>'])
    ∧ (scanLine ['<', '='] 1 Tokenizer.init =
        scanLine [] 1
          ⟨Tokenizer.init.tokens ++ [⟨two_char_kind '<', String.mk ['<', '='], 1, some 1, none⟩],
           Tokenizer.init.errors⟩
      ∧ ('a' ≠ '=' → scanLine ['<', 'a'] 1 Tokenizer.init =
          scanLine ['a'] 1
            ⟨Tokenizer.init.tokens ++ [⟨one_char_kind '<', String.mk ['<'], 1, some 1, none⟩],
             Tokenizer.init.errors⟩)
      ∧ scanLine ['<'] 1 Tokenizer.init =
          (⟨Tokenizer.init.tokens ++ [⟨one_char_kind '<', String.mk ['<'], 1, some 1, none⟩],
            Tokenizer.init.errors⟩, 1)) :=
  ⟨by decide, two_char_operator_tokens '<' (by decide) [] 'a' 1 Tokenizer.init⟩
